import Mathlib

/-!
Verification of the RISC-V privileged-architecture helpers of `tlib`
(`arch/riscv/op_helper.c`): CSR read/write dispatch, CSR access control,
counter virtualization, and the trap-return instructions.

The development is a shallow embedding of the C source.  The build
configuration is `TARGET_RISCV32` (the `TARGET_RISCV64` branch of the
`CSR_MCYCLE` write does not even parse, so it is never compiled), hence the
`#if defined(TARGET_RISCV32)` blocks of the source are live.  Registers are
modelled as `Nat`; the raw lifetime instruction counter and the counter
snapshot/offset fields are C `uint64_t` values, so their arithmetic is
performed modulo `2 ^ 64` (`add64` / `sub64` below).

Numeric constants (CSR numbers, `mstatus` field masks, privilege levels and
exception cause codes) live in headers (`cpu.h` / `cpu_bits.h`) that are not
part of the sources under verification.  They are modelled from the spec:
CSR numbers are the standard RISC-V encodings the spec describes (bits
[9:8] encode the minimum privilege, bits [11:10] equal to 3 mark a CSR
read-only), `mstatus`/`sstatus` field masks are the standard privileged-1.9.1
layouts, and `MSTATUS64_SD` is the derived state-dirty summary bit, which
the spec describes as a genuine bit of `mstatus` recomputed on every write
that can affect it (modelled as bit 63, with `mstatus` kept wide enough to
hold it).
-/

namespace Tlib

/-! ### Constants, modelled from the spec (headers not in the sources) -/

/-- Privilege level: User. -/
def PRV_U : Nat := 0
/-- Privilege level: Supervisor. -/
def PRV_S : Nat := 1
/-- Privilege level: legacy Hypervisor (coerced to User by `set_privilege`). -/
def PRV_H : Nat := 2
/-- Privilege level: Machine. -/
def PRV_M : Nat := 3

def MSTATUS_UIE : Nat := 0x1
def MSTATUS_SIE : Nat := 0x2
def MSTATUS_MIE : Nat := 0x8
def MSTATUS_SPIE : Nat := 0x20
def MSTATUS_MPIE : Nat := 0x80
def MSTATUS_SPP : Nat := 0x100
def MSTATUS_MPP : Nat := 0x1800
def MSTATUS_FS : Nat := 0x6000
def MSTATUS_XS : Nat := 0x18000
def MSTATUS_MPRV : Nat := 0x20000
def MSTATUS_PUM : Nat := 0x40000
def MSTATUS_MXR : Nat := 0x80000
def MSTATUS_VM : Nat := 0x1F000000
/-- State-dirty summary bit of `mstatus` (see the header comment). -/
def MSTATUS64_SD : Nat := 0x8000000000000000

def SSTATUS_SIE : Nat := 0x2
def SSTATUS_SPIE : Nat := 0x20
def SSTATUS_SPP : Nat := 0x100
def SSTATUS_FS : Nat := 0x6000
def SSTATUS_XS : Nat := 0x18000
def SSTATUS_PUM : Nat := 0x40000
def SSTATUS64_SD : Nat := 0x8000000000000000

def MIP_SSIP : Nat := 0x2
def MIP_MSIP : Nat := 0x8
def MIP_STIP : Nat := 0x20
def MIP_MTIP : Nat := 0x80
def MIP_SEIP : Nat := 0x200
def MIP_MEIP : Nat := 0x800
def IRQ_COP : Nat := 12

def VM_MBARE : Nat := 0
def VM_SV32 : Nat := 8
def VM_SV39 : Nat := 9
def VM_SV48 : Nat := 10

def FSR_AEXC_SHIFT : Nat := 0
def FSR_RD_SHIFT : Nat := 5
def FSR_AEXC : Nat := 0x1F
def FSR_RD : Nat := 0xE0

def RISCV_EXCP_INST_ADDR_MIS : Nat := 0
def RISCV_EXCP_INST_ACCESS_FAULT : Nat := 1
def RISCV_EXCP_ILLEGAL_INST : Nat := 2
def RISCV_EXCP_BREAKPOINT : Nat := 3
def RISCV_EXCP_LOAD_ADDR_MIS : Nat := 4
def RISCV_EXCP_LOAD_ACCESS_FAULT : Nat := 5
def RISCV_EXCP_STORE_AMO_ADDR_MIS : Nat := 6
def RISCV_EXCP_STORE_AMO_ACCESS_FAULT : Nat := 7
def RISCV_EXCP_U_ECALL : Nat := 8
def RISCV_EXCP_S_ECALL : Nat := 9
def RISCV_EXCP_H_ECALL : Nat := 10
def RISCV_EXCP_M_ECALL : Nat := 11

def CSR_FFLAGS : Nat := 0x001
def CSR_FRM : Nat := 0x002
def CSR_FCSR : Nat := 0x003
def CSR_CYCLE : Nat := 0xC00
def CSR_INSTRET : Nat := 0xC02
def CSR_HPMCOUNTER3 : Nat := 0xC03
def CSR_HPMCOUNTER31 : Nat := 0xC1F
def CSR_HPMCOUNTER3H : Nat := 0xC83
def CSR_HPMCOUNTER31H : Nat := 0xC9F
def CSR_SSTATUS : Nat := 0x100
def CSR_SIE : Nat := 0x104
def CSR_STVEC : Nat := 0x105
def CSR_SSCRATCH : Nat := 0x140
def CSR_SEPC : Nat := 0x141
def CSR_SCAUSE : Nat := 0x142
def CSR_SBADADDR : Nat := 0x143
def CSR_SIP : Nat := 0x144
def CSR_SPTBR : Nat := 0x180
def CSR_MSTATUS : Nat := 0x300
def CSR_MISA : Nat := 0x301
def CSR_MEDELEG : Nat := 0x302
def CSR_MIDELEG : Nat := 0x303
def CSR_MIE : Nat := 0x304
def CSR_MTVEC : Nat := 0x305
def CSR_MUCOUNTEREN : Nat := 0x320
def CSR_MSCOUNTEREN : Nat := 0x321
def CSR_MHPMEVENT3 : Nat := 0x323
def CSR_MHPMEVENT31 : Nat := 0x33F
def CSR_MSCRATCH : Nat := 0x340
def CSR_MEPC : Nat := 0x341
def CSR_MCAUSE : Nat := 0x342
def CSR_MBADADDR : Nat := 0x343
def CSR_MIP : Nat := 0x344
def CSR_TSELECT : Nat := 0x7A0
def CSR_TDATA1 : Nat := 0x7A1
def CSR_TDATA2 : Nat := 0x7A2
def CSR_TDATA3 : Nat := 0x7A3
def CSR_DCSR : Nat := 0x7B0
def CSR_MCYCLE : Nat := 0xB00
def CSR_MINSTRET : Nat := 0xB02
def CSR_MHPMCOUNTER3 : Nat := 0xB03
def CSR_MHPMCOUNTER31 : Nat := 0xB1F
def CSR_MCYCLEH : Nat := 0xB80
def CSR_MINSTRETH : Nat := 0xB82
def CSR_MVENDORID : Nat := 0xF11
def CSR_MARCHID : Nat := 0xF12
def CSR_MIMPID : Nat := 0xF13
def CSR_MHARTID : Nat := 0xF14

/-- Physical-address-space bits of the RV32 configuration. -/
def TARGET_PHYS_ADDR_SPACE_BITS : Nat := 34
/-- Page-offset bits. -/
def PGSHIFT : Nat := 12
/-- Word length of the target, `TARGET_RISCV32`. -/
def TARGET_LONG_BITS : Nat := 32

/-! ### Bit-field helpers (`get_field` / `set_field` macros of the source) -/

/-- C expression `a & ~m` on the untruncated `Nat` model: clear in `a` every
bit that is set in `m`. -/
def andNot (a m : Nat) : Nat := a ^^^ (a &&& m)

/-- Lowest set bit of `m`.  The C macros compute `mask & ~(mask << 1)`,
which equals the lowest set bit for every (contiguous) mask used in this
source file. -/
def lsb_mask (m : Nat) : Nat := m ^^^ (m &&& (m - 1))

/-- Source macro `get_field(reg, mask)`. -/
def get_field (reg mask : Nat) : Nat := (reg &&& mask) / lsb_mask mask

/-- Source macro `set_field(reg, mask, val)`. -/
def set_field (reg mask val : Nat) : Nat :=
  andNot reg mask ||| ((val * lsb_mask mask) &&& mask)

/-- Addition of two C `uint64_t` values. -/
def add64 (a b : Nat) : Nat := (a + b) % 18446744073709551616

/-- Subtraction of two C `uint64_t` values (wrapping). -/
def sub64 (a b : Nat) : Nat :=
  (a + (18446744073709551616 - b % 18446744073709551616)) % 18446744073709551616

/-! ### Privileged CPU state (the fields of `CPUState` this core touches) -/

structure CPUState where
  priv : Nat
  mstatus : Nat
  mie : Nat
  mip : Nat
  mideleg : Nat
  medeleg : Nat
  mucounteren : Nat
  mscounteren : Nat
  fflags : Nat
  frm : Nat
  sepc : Nat
  stvec : Nat
  sscratch : Nat
  scause : Nat
  sbadaddr : Nat
  sptbr : Nat
  mepc : Nat
  mtvec : Nat
  mscratch : Nat
  mcause : Nat
  mbadaddr : Nat
  misa : Nat
  max_isa : Nat
  mcycle_snapshot : Nat
  mcycle_snapshot_offset : Nat
  minstret_snapshot : Nat
  minstret_snapshot_offset : Nat
  instructions_count_total_value : Nat
  pc : Nat
  exception_index : Nat
  badaddr : Nat
  wfi : Nat
deriving DecidableEq, Repr

/-- Outcome of a helper: a normal return carrying a value and the updated
state, a guest-visible trap (`helper_raise_exception` /
`do_raise_exception_err`, recording the cause in `exception_index` and the
restore site passed to `cpu_loop_exit_restore`), or a fatal `tlib_abort`. -/
inductive Res (α : Type) where
  | ok (v : α) (s : CPUState)
  | trap (cause : Nat) (site : Nat) (s : CPUState)
  | abort (msg : String)
deriving DecidableEq, Repr

/-- Sequencing of outcomes: traps and aborts never return to their caller. -/
def Res.bind {α β : Type} : Res α → (α → CPUState → Res β) → Res β
  | .ok v s, f => f v s
  | .trap c p s, _ => .trap c p s
  | .abort m, _ => .abort m

/-! ### Embedded operations -/

/-- Source `validate_priv`. -/
def validate_priv (priv : Nat) : Bool :=
  priv == PRV_U || priv == PRV_S || priv == PRV_M

/-- Source `validate_vm`. -/
def validate_vm (vm : Nat) : Bool :=
  vm == VM_SV32 || vm == VM_SV39 || vm == VM_SV48 || vm == VM_MBARE

/-- Source `cpu_riscv_read_instret`: the raw lifetime instruction count. -/
def cpu_riscv_read_instret (env : CPUState) : Nat :=
  env.instructions_count_total_value

/-- Source `do_raise_exception_err`. -/
def do_raise_exception_err (env : CPUState) (exception : Nat) (pc : Nat) :
    Res Unit :=
  .trap exception pc { env with exception_index := exception }

/-- Source `helper_raise_exception`. -/
def helper_raise_exception (env : CPUState) (exception : Nat) : Res Unit :=
  do_raise_exception_err env exception 0

/-- Source `get_minstret_current`. -/
def get_minstret_current (env : CPUState) : Nat :=
  add64 (sub64 (cpu_riscv_read_instret env) env.minstret_snapshot)
    env.minstret_snapshot_offset

/-- Source `get_mcycles_current`. -/
def get_mcycles_current (env : CPUState) : Nat :=
  add64 (sub64 (cpu_riscv_read_instret env) env.mcycle_snapshot)
    env.mcycle_snapshot_offset

/-- Interrupts delegable to Supervisor mode (`delegable_ints` in
`csr_write_helper`). -/
def delegable_ints : Nat := MIP_SSIP ||| MIP_STIP ||| MIP_SEIP ||| (1 <<< IRQ_COP)

/-- All interrupt bits (`all_ints` in `csr_write_helper`). -/
def all_ints : Nat :=
  delegable_ints ||| MIP_MSIP ||| MIP_MTIP ||| MIP_MEIP

/-- Writable field mask of `MSTATUS` (the `mask` local of the
`CSR_MSTATUS` case, before the conditional `MSTATUS_VM` extension; the
comment in the source notes there is no extension support, so `MSTATUS_XS`
is not writable). -/
def mstatus_wmask : Nat :=
  MSTATUS_SIE ||| MSTATUS_SPIE ||| MSTATUS_MIE ||| MSTATUS_MPIE
    ||| MSTATUS_SPP ||| MSTATUS_FS ||| MSTATUS_MPRV ||| MSTATUS_PUM
    ||| MSTATUS_MPP ||| MSTATUS_MXR

/-- Body of the `CSR_MSTATUS` case of `csr_write_helper`.  The C code
re-dispatches to this case from the `CSR_SSTATUS` case by calling
`csr_write_helper(env, ms, CSR_MSTATUS)`; factoring the case body out
expresses that bounded recursion.  The TLB flush performed when
translation-relevant fields change acts only on the external translation
cache, which is outside the modelled state. -/
def write_mstatus (env : CPUState) (val_to_write : Nat) : CPUState :=
  let mask := if validate_vm (get_field val_to_write MSTATUS_VM)
    then mstatus_wmask ||| MSTATUS_VM else mstatus_wmask
  let mstatus := andNot env.mstatus mask ||| (val_to_write &&& mask)
  let dirty : Nat :=
    if (mstatus &&& MSTATUS_FS = MSTATUS_FS) ∨ (mstatus &&& MSTATUS_XS = MSTATUS_XS)
    then 1 else 0
  { env with mstatus := set_field mstatus MSTATUS64_SD dirty }

/-- Body of the `CSR_MIP` case of `csr_write_helper` (also reached from the
`CSR_SIP` case).  Modelled from the spec: the source hands the merged value
to the external interrupt controller (`tlib_set_mip`), which installs it as
the new pending-interrupt register. -/
def write_mip (env : CPUState) (val_to_write : Nat) : CPUState :=
  let mask := MIP_SSIP ||| MIP_STIP
  { env with mip := andNot env.mip mask ||| (val_to_write &&& mask) }

/-- Body of the `CSR_MIE` case of `csr_write_helper` (also reached from the
`CSR_SIE` case). -/
def write_mie (env : CPUState) (val_to_write : Nat) : CPUState :=
  { env with mie := andNot env.mie all_ints ||| (val_to_write &&& all_ints) }

/-- Writable cause bits of `medeleg` (the mask built in the `CSR_MEDELEG`
case). -/
def medeleg_mask : Nat :=
  (1 <<< RISCV_EXCP_INST_ADDR_MIS) ||| (1 <<< RISCV_EXCP_INST_ACCESS_FAULT)
  ||| (1 <<< RISCV_EXCP_ILLEGAL_INST) ||| (1 <<< RISCV_EXCP_BREAKPOINT)
  ||| (1 <<< RISCV_EXCP_LOAD_ADDR_MIS) ||| (1 <<< RISCV_EXCP_LOAD_ACCESS_FAULT)
  ||| (1 <<< RISCV_EXCP_STORE_AMO_ADDR_MIS)
  ||| (1 <<< RISCV_EXCP_STORE_AMO_ACCESS_FAULT)
  ||| (1 <<< RISCV_EXCP_U_ECALL) ||| (1 <<< RISCV_EXCP_S_ECALL)
  ||| (1 <<< RISCV_EXCP_H_ECALL) ||| (1 <<< RISCV_EXCP_M_ECALL)

/-- Mask used by the `CSR_SSTATUS` read and write cases. -/
def sstatus_mask : Nat :=
  SSTATUS_SIE ||| SSTATUS_SPIE ||| SSTATUS_SPP ||| SSTATUS_FS
  ||| SSTATUS_XS ||| SSTATUS_PUM

/-- Writable `misa` capability bits (`MAFDC`) before intersection with
`max_isa`. -/
def misa_mafdc_mask : Nat :=
  (1 <<< 12) ||| (1 <<< 0) ||| (1 <<< 5) ||| (1 <<< 3) ||| (1 <<< 2)

/-- Source `csr_write_helper`, `TARGET_RISCV32` configuration.  The switch
is rendered as an if-chain in source order; the recursive re-dispatches of
the `CSR_SSTATUS` / `CSR_SIP` / `CSR_SIE` cases (which call the function
again with the constant `CSR_MSTATUS` / `CSR_MIP` / `CSR_MIE`) appear as
calls of the factored-out case bodies. -/
def csr_write_helper (env : CPUState) (val_to_write csrno : Nat) : Res Unit :=
  if csrno = CSR_FFLAGS then
    .ok () { env with
      mstatus := env.mstatus ||| (MSTATUS_FS ||| MSTATUS64_SD),
      fflags := val_to_write &&& (FSR_AEXC >>> FSR_AEXC_SHIFT) }
  else if csrno = CSR_FRM then
    .ok () { env with
      mstatus := env.mstatus ||| (MSTATUS_FS ||| MSTATUS64_SD),
      frm := val_to_write &&& (FSR_RD >>> FSR_RD_SHIFT) }
  else if csrno = CSR_FCSR then
    .ok () { env with
      mstatus := env.mstatus ||| (MSTATUS_FS ||| MSTATUS64_SD),
      fflags := (val_to_write &&& FSR_AEXC) >>> FSR_AEXC_SHIFT,
      frm := (val_to_write &&& FSR_RD) >>> FSR_RD_SHIFT }
  else if csrno = CSR_MSTATUS then
    .ok () (write_mstatus env val_to_write)
  else if csrno = CSR_MIP then
    .ok () (write_mip env val_to_write)
  else if csrno = CSR_MIE then
    .ok () (write_mie env val_to_write)
  else if csrno = CSR_MIDELEG then
    .ok () { env with mideleg :=
      (andNot env.mideleg delegable_ints ||| (val_to_write &&& delegable_ints)) }
  else if csrno = CSR_MEDELEG then
    .ok () { env with medeleg :=
      (andNot env.medeleg medeleg_mask ||| (val_to_write &&& medeleg_mask)) }
  else if csrno = CSR_MUCOUNTEREN then
    .ok () { env with mucounteren := val_to_write }
  else if csrno = CSR_MSCOUNTEREN then
    .ok () { env with mscounteren := val_to_write }
  else if csrno = CSR_SSTATUS then
    let ms := andNot env.mstatus sstatus_mask ||| (val_to_write &&& sstatus_mask)
    .ok () (write_mstatus env ms)
  else if csrno = CSR_SIP then
    let next_mip := andNot env.mip env.mideleg ||| (val_to_write &&& env.mideleg)
    .ok () (write_mip env next_mip)
  else if csrno = CSR_SIE then
    let next_mie := andNot env.mie env.mideleg ||| (val_to_write &&& env.mideleg)
    .ok () (write_mie env next_mie)
  else if csrno = CSR_SPTBR then
    .ok () { env with sptbr :=
      val_to_write &&& ((1 <<< (TARGET_PHYS_ADDR_SPACE_BITS - PGSHIFT)) - 1) }
  else if csrno = CSR_SEPC then
    .ok () { env with sepc := val_to_write }
  else if csrno = CSR_STVEC then
    .ok () { env with stvec := val_to_write >>> 2 <<< 2 }
  else if csrno = CSR_SSCRATCH then
    .ok () { env with sscratch := val_to_write }
  else if csrno = CSR_SCAUSE then
    .ok () { env with scause := val_to_write }
  else if csrno = CSR_SBADADDR then
    .ok () { env with sbadaddr := val_to_write }
  else if csrno = CSR_MEPC then
    .ok () { env with mepc := val_to_write }
  else if csrno = CSR_MTVEC then
    .ok () { env with mtvec := val_to_write >>> 2 <<< 2 }
  else if csrno = CSR_MSCRATCH then
    .ok () { env with mscratch := val_to_write }
  else if csrno = CSR_MCAUSE then
    .ok () { env with mcause := val_to_write }
  else if csrno = CSR_MBADADDR then
    .ok () { env with mbadaddr := val_to_write }
  else if csrno = CSR_MISA then
    let v := if val_to_write &&& (1 <<< 5) = 0
      then andNot val_to_write (1 <<< 3) else val_to_write
    let mask := misa_mafdc_mask &&& env.max_isa
    .ok () { env with misa := (v &&& mask) ||| andNot env.misa mask }
  else if csrno = CSR_TSELECT then
    .ok () env
  else if csrno = CSR_TDATA1 then
    .abort "CSR_TDATA1 write not implemented"
  else if csrno = CSR_TDATA2 then
    .abort "CSR_TDATA2 write not implemented"
  else if csrno = CSR_DCSR then
    .abort "CSR_DCSR write not implemented"
  else if csrno = CSR_MCYCLE then
    .ok () { env with
      mcycle_snapshot_offset :=
        (get_mcycles_current env &&& 0xFFFFFFFF00000000) ||| val_to_write,
      mcycle_snapshot := cpu_riscv_read_instret env }
  else if csrno = CSR_MCYCLEH then
    .ok () { env with
      mcycle_snapshot_offset :=
        (get_mcycles_current env &&& 0x00000000FFFFFFFF) ||| (val_to_write <<< 32),
      mcycle_snapshot := cpu_riscv_read_instret env }
  else if csrno = CSR_MINSTRET then
    .ok () { env with
      minstret_snapshot_offset :=
        (get_minstret_current env &&& 0xFFFFFFFF00000000) ||| val_to_write,
      minstret_snapshot := cpu_riscv_read_instret env }
  else if csrno = CSR_MINSTRETH then
    .ok () { env with
      minstret_snapshot_offset :=
        (get_minstret_current env &&& 0x00000000FFFFFFFF) ||| (val_to_write <<< 32),
      minstret_snapshot := cpu_riscv_read_instret env }
  else
    .trap RISCV_EXCP_ILLEGAL_INST 0
      { env with exception_index := RISCV_EXCP_ILLEGAL_INST }

/-- Per-privilege counter-enable word computed at the top of
`csr_read_helper` (`-1U`, all ones, in Machine mode). -/
def ctr_en (env : CPUState) : Nat :=
  if env.priv = PRV_U then env.mucounteren
  else if env.priv = PRV_S then env.mscounteren
  else 4294967295

/-- Counter-enable bit at position `csrno & 31` (`ctr_ok` of
`csr_read_helper`). -/
def ctr_ok (env : CPUState) (csrno : Nat) : Nat :=
  (ctr_en env >>> (csrno &&& 31)) &&& 1

/-- Switch statement of `csr_read_helper`, in source order, taking the
already-computed `ctr_ok` bit.  Cases that `break` out of the switch fall
through to the final illegal-instruction raise. -/
def csr_read_switch (env : CPUState) (ctrok csrno : Nat) : Res Nat :=
  if csrno = CSR_FFLAGS then .ok env.fflags env
  else if csrno = CSR_FRM then .ok env.frm env
  else if csrno = CSR_FCSR then
    .ok (env.fflags <<< FSR_AEXC_SHIFT ||| env.frm <<< FSR_RD_SHIFT) env
  else if csrno = CSR_INSTRET ∨ csrno = CSR_CYCLE then
    if ctrok ≠ 0 then .ok (cpu_riscv_read_instret env) env
    else .trap RISCV_EXCP_ILLEGAL_INST 0
      { env with exception_index := RISCV_EXCP_ILLEGAL_INST }
  else if csrno = CSR_MINSTRET then .ok (get_minstret_current env) env
  else if csrno = CSR_MCYCLE then .ok (get_mcycles_current env) env
  else if csrno = CSR_MINSTRETH then .ok (get_minstret_current env >>> 32) env
  else if csrno = CSR_MCYCLEH then .ok (get_mcycles_current env >>> 32) env
  else if csrno = CSR_MUCOUNTEREN then .ok env.mucounteren env
  else if csrno = CSR_MSCOUNTEREN then .ok env.mscounteren env
  else if csrno = CSR_SSTATUS then
    let sstatus := env.mstatus &&& sstatus_mask
    let sstatus := if (sstatus &&& SSTATUS_FS = SSTATUS_FS)
        ∨ (sstatus &&& SSTATUS_XS = SSTATUS_XS)
      then sstatus ||| SSTATUS64_SD else sstatus
    .ok sstatus env
  else if csrno = CSR_SIP then .ok (env.mip &&& env.mideleg) env
  else if csrno = CSR_SIE then .ok (env.mie &&& env.mideleg) env
  else if csrno = CSR_SEPC then .ok env.sepc env
  else if csrno = CSR_SBADADDR then .ok env.sbadaddr env
  else if csrno = CSR_STVEC then .ok env.stvec env
  else if csrno = CSR_SCAUSE then .ok env.scause env
  else if csrno = CSR_SPTBR then .ok env.sptbr env
  else if csrno = CSR_SSCRATCH then .ok env.sscratch env
  else if csrno = CSR_MSTATUS then .ok env.mstatus env
  else if csrno = CSR_MIP then .ok env.mip env
  else if csrno = CSR_MIE then .ok env.mie env
  else if csrno = CSR_MEPC then .ok env.mepc env
  else if csrno = CSR_MSCRATCH then .ok env.mscratch env
  else if csrno = CSR_MCAUSE then .ok env.mcause env
  else if csrno = CSR_MBADADDR then .ok env.mbadaddr env
  else if csrno = CSR_MISA then .ok env.misa env
  else if csrno = CSR_MARCHID then .ok 0 env
  else if csrno = CSR_MIMPID then .ok 0 env
  else if csrno = CSR_MVENDORID then .ok 0 env
  else if csrno = CSR_MHARTID then .ok 0 env
  else if csrno = CSR_MTVEC then .ok env.mtvec env
  else if csrno = CSR_MEDELEG then .ok env.medeleg env
  else if csrno = CSR_MIDELEG then .ok env.mideleg env
  else if csrno = CSR_TSELECT then .ok (1 <<< (TARGET_LONG_BITS - 5)) env
  else if csrno = CSR_TDATA1 then .abort "CSR_TDATA1 read not implemented"
  else if csrno = CSR_TDATA2 then .abort "CSR_TDATA2 read not implemented"
  else if csrno = CSR_TDATA3 then .abort "CSR_TDATA3 read not implemented"
  else if csrno = CSR_DCSR then .abort "CSR_DCSR read not implemented"
  else .trap RISCV_EXCP_ILLEGAL_INST 0
    { env with exception_index := RISCV_EXCP_ILLEGAL_INST }

/-- Source `csr_read_helper`, `TARGET_RISCV32` configuration: the
counter-enable-gated HPM-counter ranges, then the machine-level HPM ranges
(the 32-bit block repeats the `CSR_MHPMCOUNTER` range check verbatim), then
the switch. -/
def csr_read_helper (env : CPUState) (csrno : Nat) : Res Nat :=
  if ctr_ok env csrno ≠ 0 ∧ CSR_HPMCOUNTER3 ≤ csrno ∧ csrno ≤ CSR_HPMCOUNTER31 then
    .ok 0 env
  else if ctr_ok env csrno ≠ 0 ∧ CSR_HPMCOUNTER3H ≤ csrno ∧ csrno ≤ CSR_HPMCOUNTER31H then
    .ok 0 env
  else if CSR_MHPMCOUNTER3 ≤ csrno ∧ csrno ≤ CSR_MHPMCOUNTER31 then
    .ok 0 env
  else if CSR_MHPMCOUNTER3 ≤ csrno ∧ csrno ≤ CSR_MHPMCOUNTER31 then
    .ok 0 env
  else if CSR_MHPMEVENT3 ≤ csrno ∧ csrno ≤ CSR_MHPMEVENT31 then
    .ok 0 env
  else csr_read_switch env (ctr_ok env csrno) csrno

/-- Source `validate_csr`: privilege field from bits [9:8], read-only code
from bits [11:10]; the illegal-instruction trap is sited at `env->pc`. -/
def validate_csr (env : CPUState) (which : Nat) (write : Bool) : Res Unit :=
  let csr_priv := get_field which 0x300
  let csr_read_only := get_field which 0xC00 = 3
  if (write = true ∧ csr_read_only) ∨ env.priv < csr_priv then
    do_raise_exception_err env RISCV_EXCP_ILLEGAL_INST env.pc
  else .ok () env

/-- Source `helper_csrrw` (atomic CSR swap). -/
def helper_csrrw (env : CPUState) (src csr : Nat) : Res Nat :=
  (validate_csr env csr true).bind fun _ env =>
    (csr_read_helper env csr).bind fun csr_backup env =>
      (csr_write_helper env src csr).bind fun _ env =>
        .ok csr_backup env

/-- Source `helper_csrrs` (atomic CSR set; the write is conditional on
`rs1_pass != 0`). -/
def helper_csrrs (env : CPUState) (src csr rs1_pass : Nat) : Res Nat :=
  (validate_csr env csr (rs1_pass != 0)).bind fun _ env =>
    (csr_read_helper env csr).bind fun csr_backup env =>
      if rs1_pass ≠ 0 then
        (csr_write_helper env (src ||| csr_backup) csr).bind fun _ env =>
          .ok csr_backup env
      else .ok csr_backup env

/-- Source `helper_csrrc` (atomic CSR clear; conditional like `csrrs`).
The C computes `(~src) & csr_backup` on 32-bit words; on the `Nat` model
this is `csr_backup` with the bits of `src` cleared. -/
def helper_csrrc (env : CPUState) (src csr rs1_pass : Nat) : Res Nat :=
  (validate_csr env csr (rs1_pass != 0)).bind fun _ env =>
    (csr_read_helper env csr).bind fun csr_backup env =>
      if rs1_pass ≠ 0 then
        (csr_write_helper env (andNot csr_backup src) csr).bind fun _ env =>
          .ok csr_backup env
      else .ok csr_backup env

/-- Source `set_privilege`: fatal abort above Machine, legacy Hypervisor
coerced to User, TLB flushed (external), then the level is committed. -/
def set_privilege (env : CPUState) (newpriv : Nat) : Res Unit :=
  if ¬ (newpriv ≤ PRV_M) then .abort "INVALID PRIV SET"
  else
    let newpriv := if newpriv = PRV_H then PRV_U else newpriv
    .ok () { env with priv := newpriv }

/-- Source `helper_sret` (return from a supervisor trap). -/
def helper_sret (env : CPUState) (cpu_pc_deb : Nat) : Res Nat :=
  if ¬ (env.priv ≥ PRV_S) then
    .trap RISCV_EXCP_ILLEGAL_INST 0
      { env with exception_index := RISCV_EXCP_ILLEGAL_INST }
  else
    let retpc := env.sepc
    if retpc &&& 0x3 ≠ 0 then
      .trap RISCV_EXCP_INST_ADDR_MIS 0
        { env with exception_index := RISCV_EXCP_INST_ADDR_MIS }
    else
      let mstatus := env.mstatus
      let prev_priv := get_field mstatus MSTATUS_SPP
      let mstatus := set_field mstatus (MSTATUS_UIE <<< prev_priv)
        (get_field mstatus MSTATUS_SPIE)
      let mstatus := set_field mstatus MSTATUS_SPIE 0
      let mstatus := set_field mstatus MSTATUS_SPP PRV_U
      (set_privilege env prev_priv).bind fun _ env =>
        (csr_write_helper env mstatus CSR_MSTATUS).bind fun _ env =>
          .ok retpc env

/-- Source `helper_mret` (return from a machine trap; no alignment check on
`mepc`, matching the asymmetry noted in the spec). -/
def helper_mret (env : CPUState) (cpu_pc_deb : Nat) : Res Nat :=
  if ¬ (env.priv ≥ PRV_M) then
    .trap RISCV_EXCP_ILLEGAL_INST 0
      { env with exception_index := RISCV_EXCP_ILLEGAL_INST }
  else
    let retpc := env.mepc
    let mstatus := env.mstatus
    let prev_priv := get_field mstatus MSTATUS_MPP
    let mstatus := set_field mstatus (MSTATUS_UIE <<< prev_priv)
      (get_field mstatus MSTATUS_MPIE)
    let mstatus := set_field mstatus MSTATUS_MPIE 0
    let mstatus := set_field mstatus MSTATUS_MPP PRV_U
    (set_privilege env prev_priv).bind fun _ env =>
      (csr_write_helper env mstatus CSR_MSTATUS).bind fun _ env =>
        .ok retpc env

/-- All-zero CPU state, used as the base of concrete test states. -/
def env0 : CPUState where
  priv := 0
  mstatus := 0
  mie := 0
  mip := 0
  mideleg := 0
  medeleg := 0
  mucounteren := 0
  mscounteren := 0
  fflags := 0
  frm := 0
  sepc := 0
  stvec := 0
  sscratch := 0
  scause := 0
  sbadaddr := 0
  sptbr := 0
  mepc := 0
  mtvec := 0
  mscratch := 0
  mcause := 0
  mbadaddr := 0
  misa := 0
  max_isa := 0
  mcycle_snapshot := 0
  mcycle_snapshot_offset := 0
  minstret_snapshot := 0
  minstret_snapshot_offset := 0
  instructions_count_total_value := 0
  pc := 0
  exception_index := 0
  badaddr := 0
  wfi := 0

/-- Specification-side rendering of the CSR access-control rule, written
from the spec's words alone (for comparison with `validate_csr`): the CSR
number's bits [11:10] equal to 3 mark it read-only-coded, bits [9:8] encode
the minimum privilege; an access is denied when it is a write to a
read-only-coded CSR or the current privilege is numerically lower than the
encoded privilege. -/
def csr_access_denied_spec (priv which : Nat) (write : Bool) : Prop :=
  (write = true ∧ (which >>> 10) &&& 3 = 3) ∨ priv < (which >>> 8) &&& 3

instance (priv which : Nat) (write : Bool) :
    Decidable (csr_access_denied_spec priv which write) :=
  inferInstanceAs (Decidable
    ((write = true ∧ (which >>> 10) &&& 3 = 3) ∨ priv < (which >>> 8) &&& 3))

/-- State-dirty invariant of `mstatus`: the summary bit equals the
disjunction of the FS field being fully dirty and the XS field being fully
dirty. -/
def sd_invariant (s : CPUState) : Prop :=
  (s.mstatus.testBit 63 = true) ↔
    ((s.mstatus &&& MSTATUS_FS = MSTATUS_FS) ∨
      (s.mstatus &&& MSTATUS_XS = MSTATUS_XS))

/-- Outcome predicate: the state carried by a normal return or by a trap
satisfies `P` (a fatal abort carries no state). -/
def res_state_ok {α : Type} (P : CPUState → Prop) : Res α → Prop
  | .ok _ s => P s
  | .trap _ _ s => P s
  | .abort _ => True

instance (s : CPUState) : Decidable (sd_invariant s) :=
  inferInstanceAs (Decidable ((s.mstatus.testBit 63 = true) ↔
    ((s.mstatus &&& MSTATUS_FS = MSTATUS_FS) ∨
      (s.mstatus &&& MSTATUS_XS = MSTATUS_XS))))

/-- Machine-privilege test state. -/
def envM : CPUState := { env0 with priv := 3 }

/-- User-privilege state with the cycle and instret counter-enable bits of
`mucounteren` set and a nonzero raw instruction count. -/
def envCtr : CPUState :=
  { env0 with mucounteren := 1, instructions_count_total_value := 7 }

/-- Supervisor-privilege state with aligned `sepc` and `mstatus` having
SPP = Supervisor and SPIE set (0x120). -/
def envSret : CPUState := { env0 with priv := 1, sepc := 0x1000, mstatus := 0x120 }

/-- User-privilege state with the cycle-counter enable bit set whose
virtualized cycle counter (raw count 5, snapshot 0, offset 1) differs from
the raw lifetime count. -/
def envCyc : CPUState :=
  { env0 with mucounteren := 1, instructions_count_total_value := 5,
              mcycle_snapshot_offset := 1 }

/-! ### Generic lemmas about the bit-field helpers -/

theorem testBit_andNot (a m i : Nat) :
    (andNot a m).testBit i = (a.testBit i && !(m.testBit i)) := by
  unfold andNot
  rw [Nat.testBit_xor, Nat.testBit_and]
  cases a.testBit i <;> cases m.testBit i <;> rfl

/-- Bit `i` of a masked merge `(a & ~m) | (b & m)` is bit `i` of `b` where
the mask is set and bit `i` of `a` elsewhere. -/
theorem testBit_merge (a b m i : Nat) :
    (andNot a m ||| (b &&& m)).testBit i =
      (if m.testBit i then b.testBit i else a.testBit i) := by
  rw [Nat.testBit_or, testBit_andNot, Nat.testBit_and]
  cases m.testBit i <;> simp

/-- On a sub-field `F` of the merge mask, a masked merge reads back the
merged-in value. -/
theorem merge_land_sub (a b m F : Nat) (h : F &&& m = F) :
    (andNot a m ||| (b &&& m)) &&& F = b &&& F := by
  apply Nat.eq_of_testBit_eq
  intro i
  have h2 := congrArg (fun t => Nat.testBit t i) h
  simp only [Nat.testBit_and] at h2
  rw [Nat.testBit_and, Nat.testBit_and, testBit_merge]
  cases hm : m.testBit i
  · rw [hm] at h2
    simp at h2
    simp [h2]
  · simp

/-- On a field `F` disjoint from the merge mask, a masked merge preserves
the old value. -/
theorem merge_land_disj (a b m F : Nat) (h : F &&& m = 0) :
    (andNot a m ||| (b &&& m)) &&& F = a &&& F := by
  apply Nat.eq_of_testBit_eq
  intro i
  have h2 := congrArg (fun t => Nat.testBit t i) h
  simp only [Nat.testBit_and, Nat.zero_testBit] at h2
  rw [Nat.testBit_and, Nat.testBit_and, testBit_merge]
  cases hm : m.testBit i
  · simp
  · rw [hm] at h2
    simp at h2
    simp [h2]

/-- Absorption: on a sub-field `F` of `b`, the join `a ||| b` reads back
all ones of `F`. -/
theorem lor_land_sub (a b F : Nat) (h : F &&& b = F) :
    (a ||| b) &&& F = F := by
  apply Nat.eq_of_testBit_eq
  intro i
  have h2 := congrArg (fun t => Nat.testBit t i) h
  simp only [Nat.testBit_and] at h2
  rw [Nat.testBit_and, Nat.testBit_or]
  cases hF : F.testBit i
  · simp
  · rw [hF] at h2
    simp at h2
    simp [h2]

/-- The bits changed by a masked merge lie inside the merge mask. -/
theorem merge_xor_submask (a b m : Nat) :
    ((andNot a m ||| (b &&& m)) ^^^ a) &&& m = (andNot a m ||| (b &&& m)) ^^^ a := by
  apply Nat.eq_of_testBit_eq
  intro i
  rw [Nat.testBit_and, Nat.testBit_xor, testBit_merge]
  cases hm : m.testBit i <;> cases a.testBit i <;> cases b.testBit i <;> rfl

/-- The bits changed by a masked merge of `b` over `a` are bits where `b`
differs from `a`. -/
theorem merge_xor_sub_xor (a b m : Nat) :
    ((andNot a m ||| (b &&& m)) ^^^ a) &&& (b ^^^ a) =
      (andNot a m ||| (b &&& m)) ^^^ a := by
  apply Nat.eq_of_testBit_eq
  intro i
  rw [Nat.testBit_and, Nat.testBit_xor, Nat.testBit_xor, testBit_merge]
  cases hm : m.testBit i <;> cases a.testBit i <;> cases b.testBit i <;> rfl

/-- Triangle rule for change masks: if `x` differs from `y` only inside `u`
and `y` from `z` only inside `v`, then `x` differs from `z` only inside
`u ||| v`. -/
theorem xor_submask_trans (x y z u v : Nat)
    (h1 : (x ^^^ y) &&& u = x ^^^ y) (h2 : (y ^^^ z) &&& v = y ^^^ z) :
    (x ^^^ z) &&& (u ||| v) = x ^^^ z := by
  apply Nat.eq_of_testBit_eq
  intro i
  have h1i := congrArg (fun t => Nat.testBit t i) h1
  have h2i := congrArg (fun t => Nat.testBit t i) h2
  simp only [Nat.testBit_and, Nat.testBit_xor] at h1i h2i
  rw [Nat.testBit_and, Nat.testBit_or, Nat.testBit_xor]
  cases hx : x.testBit i <;> cases hy : y.testBit i <;> cases hz : z.testBit i <;>
    cases hu : u.testBit i <;> cases hv : v.testBit i <;> simp_all

/-- Monotonicity of change masks. -/
theorem xor_submask_mono (x m M : Nat) (h1 : x &&& m = x) (h2 : m &&& M = m) :
    x &&& M = x := by
  apply Nat.eq_of_testBit_eq
  intro i
  have h1i := congrArg (fun t => Nat.testBit t i) h1
  have h2i := congrArg (fun t => Nat.testBit t i) h2
  simp only [Nat.testBit_and] at h1i h2i
  rw [Nat.testBit_and]
  cases hx : x.testBit i <;> cases hm : m.testBit i <;> cases hM : M.testBit i <;> simp_all

/-- Frame rule: values that differ only inside `c` agree on any field
disjoint from `c`. -/
theorem land_frame_of_xor_submask (x y c M : Nat)
    (h : (x ^^^ y) &&& c = x ^^^ y) (hd : c &&& M = 0) :
    x &&& M = y &&& M := by
  apply Nat.eq_of_testBit_eq
  intro i
  have hi := congrArg (fun t => Nat.testBit t i) h
  have hdi := congrArg (fun t => Nat.testBit t i) hd
  simp only [Nat.testBit_and, Nat.testBit_xor, Nat.zero_testBit] at hi hdi
  rw [Nat.testBit_and, Nat.testBit_and]
  cases hx : x.testBit i <;> cases hy : y.testBit i <;> cases hc : c.testBit i <;>
    cases hM : M.testBit i <;> simp_all

/-- On a field `F` disjoint from the written mask, `set_field` preserves
the old value. -/
theorem set_field_land_disj (r m v F : Nat) (h : F &&& m = 0) :
    set_field r m v &&& F = r &&& F := by
  unfold set_field
  exact merge_land_disj r (v * lsb_mask m) m F h

/-- The bits changed by `set_field` lie inside the written mask. -/
theorem set_field_xor_submask (r m v : Nat) :
    (set_field r m v ^^^ r) &&& m = set_field r m v ^^^ r := by
  unfold set_field
  exact merge_xor_submask r (v * lsb_mask m) m

theorem two_pow_land_pred (k : Nat) : 2 ^ k &&& (2 ^ k - 1) = 0 := by
  apply Nat.eq_of_testBit_eq
  intro i
  rw [Nat.testBit_and, Nat.testBit_two_pow, Nat.testBit_two_pow_sub_one, Nat.zero_testBit]
  by_cases h : k = i
  · subst h
    simp
  · simp [h]

theorem lsb_mask_two_pow (k : Nat) : lsb_mask (2 ^ k) = 2 ^ k := by
  unfold lsb_mask
  rw [two_pow_land_pred, Nat.xor_zero]

/-- Bit `j` of `set_field r (2 ^ k) v` for a one-bit field value `v`. -/
theorem testBit_set_field_single (r k v j : Nat) (hv : v ≤ 1) :
    (set_field r (2 ^ k) v).testBit j =
      (if j = k then decide (v = 1) else r.testBit j) := by
  unfold set_field
  rw [lsb_mask_two_pow, testBit_merge, Nat.testBit_two_pow]
  by_cases h : j = k
  · subst h
    interval_cases v <;> simp [Nat.testBit_two_pow]
  · have hkj : ¬ (k = j) := fun hh => h hh.symm
    simp [hkj, h]

/-- Single-bit fields, read through `&&&`, in terms of `testBit`. -/
theorem land_two_pow (x k : Nat) :
    x &&& 2 ^ k = (if x.testBit k then 2 ^ k else 0) := by
  apply Nat.eq_of_testBit_eq
  intro i
  rw [Nat.testBit_and, Nat.testBit_two_pow]
  by_cases h : k = i
  · subst h
    cases hx : x.testBit k <;> simp [hx, Nat.testBit_two_pow]
  · cases hx : x.testBit k <;>
      simp [h, hx, Nat.testBit_two_pow, Nat.zero_testBit]

/-- Reading a single-bit field with `get_field` yields the bit. -/
theorem get_field_two_pow (x k : Nat) :
    get_field x (2 ^ k) = (if x.testBit k then 1 else 0) := by
  unfold get_field
  rw [lsb_mask_two_pow, land_two_pow]
  cases hx : x.testBit k
  · simp
  · simp [Nat.div_self (Nat.pow_pos (by norm_num : 0 < 2))]

/-! ### Support lemmas about the embedded operations -/

theorem land_three_shift (x s : Nat) :
    x &&& (3 <<< s) = ((x >>> s) &&& 3) <<< s := by
  apply Nat.eq_of_testBit_eq
  intro i
  rw [Nat.testBit_and, Nat.testBit_shiftLeft, Nat.testBit_shiftLeft,
    Nat.testBit_and, Nat.testBit_shiftRight]
  by_cases h : s ≤ i
  · have hsi : s + (i - s) = i := by omega
    rw [hsi]
    cases x.testBit i <;> cases (3 : Nat).testBit (i - s) <;> simp [h]
  · simp [h]

/-- Bits [11:10] of a CSR number, as read by `validate_csr`. -/
theorem get_field_ro (x : Nat) : get_field x 0xC00 = (x >>> 10) &&& 3 := by
  unfold get_field
  have h1 : (0xC00 : Nat) = 3 <<< 10 := by decide
  have h2 : lsb_mask 0xC00 = 2 ^ 10 := by decide
  rw [h2, h1, land_three_shift, Nat.shiftLeft_eq,
    Nat.mul_div_cancel _ (by norm_num : 0 < 2 ^ 10)]

/-- Bits [9:8] of a CSR number, as read by `validate_csr`. -/
theorem get_field_priv (x : Nat) : get_field x 0x300 = (x >>> 8) &&& 3 := by
  unfold get_field
  have h1 : (0x300 : Nat) = 3 <<< 8 := by decide
  have h2 : lsb_mask 0x300 = 2 ^ 8 := by decide
  rw [h2, h1, land_three_shift, Nat.shiftLeft_eq,
    Nat.mul_div_cancel _ (by norm_num : 0 < 2 ^ 8)]

/-- Outside the four HPM-counter ranges, `csr_read_helper` is its switch
statement. -/
theorem csr_read_helper_eq_switch (env : CPUState) (csrno : Nat)
    (h1 : ¬(CSR_HPMCOUNTER3 ≤ csrno ∧ csrno ≤ CSR_HPMCOUNTER31))
    (h2 : ¬(CSR_HPMCOUNTER3H ≤ csrno ∧ csrno ≤ CSR_HPMCOUNTER31H))
    (h3 : ¬(CSR_MHPMCOUNTER3 ≤ csrno ∧ csrno ≤ CSR_MHPMCOUNTER31))
    (h4 : ¬(CSR_MHPMEVENT3 ≤ csrno ∧ csrno ≤ CSR_MHPMEVENT31)) :
    csr_read_helper env csrno = csr_read_switch env (ctr_ok env csrno) csrno := by
  unfold csr_read_helper
  rw [if_neg (fun hc => h1 hc.2), if_neg (fun hc => h2 hc.2),
    if_neg h3, if_neg h3, if_neg h4]

/-- C7: for every CSR whose read is permitted at the current privilege
(the encoded privilege does not exceed the current one) and succeeds with
value `v` (reads never mutate the state, so the successful read returns the
state unchanged), `csrrs` and `csrrc` with an all-zero source operand
succeed: they return the current value, perform no write, and raise no
read-only or privilege write trap; while an unconditional swap
(`helper_csrrw`) of a read-only-coded CSR raises illegal-instruction. -/
theorem csrrs_csrrc_zero_is_read (env : CPUState) (src csr v : Nat)
    (hpriv : ¬ env.priv < get_field csr 0x300)
    (hread : csr_read_helper env csr = Res.ok v env) :
    helper_csrrs env src csr 0 = Res.ok v env ∧
    helper_csrrc env src csr 0 = Res.ok v env ∧
    (get_field csr 0xC00 = 3 →
      helper_csrrw env src csr =
        Res.trap RISCV_EXCP_ILLEGAL_INST env.pc
          { env with exception_index := RISCV_EXCP_ILLEGAL_INST }) := by
  have hv : validate_csr env csr false = Res.ok () env := by
    simp only [validate_csr, do_raise_exception_err]
    rw [if_neg]
    intro hc
    rcases hc with ⟨hw, _⟩ | hp
    · exact Bool.noConfusion hw
    · exact hpriv hp
  refine ⟨?_, ?_, ?_⟩
  · unfold helper_csrrs
    rw [show ((0 : Nat) != 0) = false from rfl, hv]
    simp only [Res.bind]
    rw [hread]
    simp only [Res.bind]
    rw [if_neg (show ¬ (0 : Nat) ≠ 0 from fun hc => hc rfl)]
  · unfold helper_csrrc
    rw [show ((0 : Nat) != 0) = false from rfl, hv]
    simp only [Res.bind]
    rw [hread]
    simp only [Res.bind]
    rw [if_neg (show ¬ (0 : Nat) ≠ 0 from fun hc => hc rfl)]
  · intro hro
    unfold helper_csrrw
    have hv2 : validate_csr env csr true =
        Res.trap RISCV_EXCP_ILLEGAL_INST env.pc
          { env with exception_index := RISCV_EXCP_ILLEGAL_INST } := by
      simp only [validate_csr, do_raise_exception_err]
      rw [if_pos (Or.inl ⟨by simp, hro⟩)]
    rw [hv2]
    rfl

/-- C7 witness: at User privilege with the cycle-counter enable bit set,
`csrrs`/`csrrc` with a zero source on the read-only-coded `CSR_CYCLE`
return the counter without trapping, while `csrrw` on the same CSR traps. -/
theorem csrrs_csrrc_zero_is_read_witness :
    (¬ envCtr.priv < get_field CSR_CYCLE 0x300) ∧
    helper_csrrs envCtr 5 CSR_CYCLE 0 = Res.ok 7 envCtr ∧
    helper_csrrc envCtr 5 CSR_CYCLE 0 = Res.ok 7 envCtr ∧
    helper_csrrw envCtr 5 CSR_CYCLE =
      Res.trap RISCV_EXCP_ILLEGAL_INST 0
        { envCtr with exception_index := RISCV_EXCP_ILLEGAL_INST } := by
  have h := csrrs_csrrc_zero_is_read envCtr 5 CSR_CYCLE 7 (by decide) (by decide)
  refine ⟨by decide, h.1, h.2.1, ?_⟩
  have h3 := h.2.2 (by decide)
  rw [show envCtr.pc = 0 from rfl] at h3
  exact h3

/-- Shape of the `mstatus` value produced by a `MSTATUS` write: a masked
merge of the written value over the old one (for a mask that contains the
whole writable mask and is contained in the writable mask plus the
virtual-memory field), followed by the summary-bit recomputation. -/
theorem write_mstatus_mstatus (env : CPUState) (v : Nat) :
    ∃ mask2,
      (write_mstatus env v).mstatus =
        set_field (andNot env.mstatus mask2 ||| (v &&& mask2)) MSTATUS64_SD
          (if ((andNot env.mstatus mask2 ||| (v &&& mask2)) &&& MSTATUS_FS
                = MSTATUS_FS) ∨
              ((andNot env.mstatus mask2 ||| (v &&& mask2)) &&& MSTATUS_XS
                = MSTATUS_XS)
           then 1 else 0) ∧
      mstatus_wmask &&& mask2 = mstatus_wmask ∧
      mask2 &&& (mstatus_wmask ||| MSTATUS_VM) = mask2 := by
  cases hvm : validate_vm (get_field v MSTATUS_VM)
  · refine ⟨mstatus_wmask, ?_, by decide, by decide⟩
    simp only [write_mstatus, hvm]
    rfl
  · refine ⟨mstatus_wmask ||| MSTATUS_VM, ?_, by decide, by decide⟩
    simp only [write_mstatus, hvm]
    rfl

/-- Forcing the floating-point state dirty (`mstatus |= MSTATUS_FS |
MSTATUS64_SD`, as done by the `FFLAGS`/`FRM`/`FCSR` write cases)
establishes the summary-bit invariant outright. -/
theorem sd_invariant_of_or_fs (s : CPUState) (a : Nat)
    (hm : s.mstatus = a ||| (MSTATUS_FS ||| MSTATUS64_SD)) : sd_invariant s := by
  unfold sd_invariant
  rw [hm]
  constructor
  · intro _
    left
    exact lor_land_sub a _ MSTATUS_FS (by decide)
  · intro _
    rw [Nat.testBit_or]
    rw [show (MSTATUS_FS ||| MSTATUS64_SD).testBit 63 = true from by decide]
    simp

/-- The `MSTATUS` write path recomputes the summary bit, so its result
satisfies the invariant unconditionally. -/
theorem sd_invariant_write_mstatus (env : CPUState) (v : Nat) :
    sd_invariant (write_mstatus env v) := by
  obtain ⟨mask2, hm, _, _⟩ := write_mstatus_mstatus env v
  unfold sd_invariant
  rw [hm]
  rw [show MSTATUS64_SD = 2 ^ 63 from by decide]
  have hdle :
      (if ((andNot env.mstatus mask2 ||| (v &&& mask2)) &&& MSTATUS_FS
            = MSTATUS_FS) ∨
          ((andNot env.mstatus mask2 ||| (v &&& mask2)) &&& MSTATUS_XS
            = MSTATUS_XS)
       then 1 else 0) ≤ 1 := by
    split <;> omega
  rw [testBit_set_field_single _ 63 _ 63 hdle]
  rw [set_field_land_disj _ _ _ MSTATUS_FS (by decide)]
  rw [set_field_land_disj _ _ _ MSTATUS_XS (by decide)]
  by_cases hD : ((andNot env.mstatus mask2 ||| (v &&& mask2)) &&& MSTATUS_FS
        = MSTATUS_FS) ∨
      ((andNot env.mstatus mask2 ||| (v &&& mask2)) &&& MSTATUS_XS
        = MSTATUS_XS)
  · rw [if_pos hD]
    simp [hD]
  · rw [if_neg hD]
    simp [hD]

/-- Below the summary bit, a `MSTATUS` write copies every bit of the
writable mask from the written value. -/
theorem write_mstatus_testBit_in (env : CPUState) (v j : Nat) (hj : j ≠ 63)
    (h1 : mstatus_wmask.testBit j = true) :
    (write_mstatus env v).mstatus.testBit j = v.testBit j := by
  obtain ⟨mask2, hm, hs1, _⟩ := write_mstatus_mstatus env v
  rw [hm, show MSTATUS64_SD = 2 ^ 63 from by decide]
  rw [testBit_set_field_single _ 63 _ j (by split <;> omega)]
  rw [if_neg hj, testBit_merge]
  have hmj : mask2.testBit j = true := by
    have hc := congrArg (fun t => Nat.testBit t j) hs1
    simp only [Nat.testBit_and] at hc
    rw [h1] at hc
    cases hm2 : mask2.testBit j
    · rw [hm2] at hc
      simp at hc
    · rfl
  rw [hmj, if_pos rfl]

/-- Below the summary bit, a `MSTATUS` write leaves every bit outside the
writable mask and the virtual-memory field unchanged. -/
theorem write_mstatus_testBit_out (env : CPUState) (v j : Nat) (hj : j ≠ 63)
    (h1 : mstatus_wmask.testBit j = false)
    (h2 : MSTATUS_VM.testBit j = false) :
    (write_mstatus env v).mstatus.testBit j = env.mstatus.testBit j := by
  obtain ⟨mask2, hm, _, hs2⟩ := write_mstatus_mstatus env v
  rw [hm, show MSTATUS64_SD = 2 ^ 63 from by decide]
  rw [testBit_set_field_single _ 63 _ j (by split <;> omega)]
  rw [if_neg hj, testBit_merge]
  have hmj : mask2.testBit j = false := by
    have hc := congrArg (fun t => Nat.testBit t j) hs2
    simp only [Nat.testBit_and, Nat.testBit_or] at hc
    rw [h1, h2] at hc
    cases hm2 : mask2.testBit j
    · rfl
    · rw [hm2] at hc
      simp at hc
  rw [hmj]
  simp

theorem sub64_self (a : Nat) : sub64 a a = 0 := by
  unfold sub64
  omega

theorem add64_zero (x : Nat) (hx : x < 18446744073709551616) : add64 0 x = x := by
  unfold add64
  omega

theorem get_mcycles_lt (env : CPUState) :
    get_mcycles_current env < 18446744073709551616 := by
  unfold get_mcycles_current add64
  exact Nat.mod_lt _ (by norm_num)

theorem get_minstret_lt (env : CPUState) :
    get_minstret_current env < 18446744073709551616 := by
  unfold get_minstret_current add64
  exact Nat.mod_lt _ (by norm_num)

/-- CSR numbers in the user-level HPM-counter ranges match no case of the
read switch, so they fall through to the illegal-instruction raise. -/
theorem csr_read_switch_unknown (env : CPUState) (c n : Nat)
    (h : (CSR_HPMCOUNTER3 ≤ n ∧ n ≤ CSR_HPMCOUNTER31) ∨
         (CSR_HPMCOUNTER3H ≤ n ∧ n ≤ CSR_HPMCOUNTER31H)) :
    csr_read_switch env c n =
      Res.trap RISCV_EXCP_ILLEGAL_INST 0
        { env with exception_index := RISCV_EXCP_ILLEGAL_INST } := by
  have hn : (0xC03 ≤ n ∧ n ≤ 0xC1F) ∨ (0xC83 ≤ n ∧ n ≤ 0xC9F) := h
  unfold csr_read_switch
  rw [if_neg, if_neg, if_neg, if_neg, if_neg, if_neg, if_neg, if_neg,
    if_neg, if_neg, if_neg, if_neg, if_neg, if_neg, if_neg, if_neg,
    if_neg, if_neg, if_neg, if_neg, if_neg, if_neg, if_neg, if_neg,
    if_neg, if_neg, if_neg, if_neg, if_neg, if_neg, if_neg, if_neg,
    if_neg, if_neg, if_neg, if_neg, if_neg, if_neg, if_neg]
  all_goals
    (simp only [CSR_FFLAGS, CSR_FRM, CSR_FCSR, CSR_INSTRET, CSR_CYCLE,
      CSR_MINSTRET, CSR_MCYCLE, CSR_MINSTRETH, CSR_MCYCLEH,
      CSR_MUCOUNTEREN, CSR_MSCOUNTEREN, CSR_SSTATUS, CSR_SIP, CSR_SIE,
      CSR_SEPC, CSR_SBADADDR, CSR_STVEC, CSR_SCAUSE, CSR_SPTBR,
      CSR_SSCRATCH, CSR_MSTATUS, CSR_MIP, CSR_MIE, CSR_MEPC, CSR_MSCRATCH,
      CSR_MCAUSE, CSR_MBADADDR, CSR_MISA, CSR_MARCHID, CSR_MIMPID,
      CSR_MVENDORID, CSR_MHARTID, CSR_MTVEC, CSR_MEDELEG, CSR_MIDELEG,
      CSR_TSELECT, CSR_TDATA1, CSR_TDATA2, CSR_TDATA3, CSR_DCSR]
     omega)

/-! ### Claim theorems -/

/-- C3: `validate_csr(csr_number, is_write)` denies the access, raising an
illegal-instruction trap sited at the faulting instruction's address
(`env->pc`), if and only if the access is a write and bits [11:10] of the
CSR number equal 3, or the current privilege is numerically lower than the
2-bit privilege field in bits [9:8] of the CSR number; otherwise it returns
normally with no state change, for every CSR number and privilege level. -/
theorem validate_csr_correct (env : CPUState) (which : Nat) (write : Bool) :
    (validate_csr env which write =
        Res.trap RISCV_EXCP_ILLEGAL_INST env.pc
          { env with exception_index := RISCV_EXCP_ILLEGAL_INST }
      ↔ csr_access_denied_spec env.priv which write) ∧
    (¬ csr_access_denied_spec env.priv which write →
      validate_csr env which write = Res.ok () env) := by
  have hcond : ((write = true ∧ get_field which 0xC00 = 3) ∨
      env.priv < get_field which 0x300) ↔
      csr_access_denied_spec env.priv which write := by
    unfold csr_access_denied_spec
    rw [get_field_ro, get_field_priv]
  constructor
  · constructor
    · intro h
      by_contra hd
      rw [← hcond] at hd
      simp only [validate_csr, do_raise_exception_err] at h
      rw [if_neg hd] at h
      exact Res.noConfusion h
    · intro hd
      rw [← hcond] at hd
      simp only [validate_csr, do_raise_exception_err]
      rw [if_pos hd]
  · intro hd
    rw [← hcond] at hd
    simp only [validate_csr, do_raise_exception_err]
    rw [if_neg hd]

/-- C3 witness: a write to the read-only-coded `CSR_CYCLE` from
machine mode is denied, and a read of `CSR_MSTATUS` from machine mode is
allowed. -/
theorem validate_csr_correct_witness :
    validate_csr envM CSR_CYCLE true =
      Res.trap RISCV_EXCP_ILLEGAL_INST 0
        { envM with exception_index := RISCV_EXCP_ILLEGAL_INST } ∧
    validate_csr envM CSR_MSTATUS false = Res.ok () envM := by
  constructor
  · have h := (validate_csr_correct envM CSR_CYCLE true).1.2
      (Or.inl ⟨rfl, by decide⟩)
    rw [show envM.pc = 0 from rfl] at h
    exact h
  · exact (validate_csr_correct envM CSR_MSTATUS false).2 (by decide)

/-- C5 counterexample: a write to `CSR_TDATA3` is delivered as a
guest-visible illegal-instruction trap, not as a fatal abort, so the claim
that every access to the four debug-trigger registers aborts is false. -/
theorem tdata3_write_not_fatal_cex :
    csr_write_helper env0 0 CSR_TDATA3 =
      Res.trap RISCV_EXCP_ILLEGAL_INST 0
        { env0 with exception_index := RISCV_EXCP_ILLEGAL_INST } ∧
    csr_write_helper env0 0 CSR_TDATA3 ≠
      Res.abort "CSR_TDATA3 write not implemented" := by
  constructor
  · rfl
  · decide

/-- C5 amended: reads of `TDATA1`/`TDATA2`/`TDATA3`/`DCSR` and writes of
`TDATA1`/`TDATA2`/`DCSR` terminate emulation with a fatal abort; a write to
`TDATA3` (which has no case in the write switch) instead raises a
guest-visible illegal-instruction trap. -/
theorem tdata_dcsr_access (env : CPUState) (val : Nat) :
    csr_read_helper env CSR_TDATA1 = Res.abort "CSR_TDATA1 read not implemented" ∧
    csr_read_helper env CSR_TDATA2 = Res.abort "CSR_TDATA2 read not implemented" ∧
    csr_read_helper env CSR_TDATA3 = Res.abort "CSR_TDATA3 read not implemented" ∧
    csr_read_helper env CSR_DCSR = Res.abort "CSR_DCSR read not implemented" ∧
    csr_write_helper env val CSR_TDATA1 = Res.abort "CSR_TDATA1 write not implemented" ∧
    csr_write_helper env val CSR_TDATA2 = Res.abort "CSR_TDATA2 write not implemented" ∧
    csr_write_helper env val CSR_DCSR = Res.abort "CSR_DCSR write not implemented" ∧
    csr_write_helper env val CSR_TDATA3 =
      Res.trap RISCV_EXCP_ILLEGAL_INST 0
        { env with exception_index := RISCV_EXCP_ILLEGAL_INST } := by
  refine ⟨?_, ?_, ?_, ?_, rfl, rfl, rfl, rfl⟩
  · exact (csr_read_helper_eq_switch env CSR_TDATA1 (by decide) (by decide)
      (by decide) (by decide)).trans rfl
  · exact (csr_read_helper_eq_switch env CSR_TDATA2 (by decide) (by decide)
      (by decide) (by decide)).trans rfl
  · exact (csr_read_helper_eq_switch env CSR_TDATA3 (by decide) (by decide)
      (by decide) (by decide)).trans rfl
  · exact (csr_read_helper_eq_switch env CSR_DCSR (by decide) (by decide)
      (by decide) (by decide)).trans rfl

/-- C6: for every value written to `MSTATUS`, the virtual-memory-scheme
field of the resulting `mstatus` comes from the written value exactly when
the requested scheme is one of the supported set (bare, Sv32, Sv39, Sv48)
and is left unchanged otherwise, while every other field of the writable
mask (SIE, SPIE, MIE, MPIE, SPP, FS, MPRV, PUM, MPP, MXR) is always
updated from the written value. -/
theorem mstatus_write_vm_gating (env : CPUState) (val : Nat) :
    ∃ s, csr_write_helper env val CSR_MSTATUS = Res.ok () s ∧
      s.mstatus &&& MSTATUS_VM =
        (if validate_vm (get_field val MSTATUS_VM) then val else env.mstatus)
          &&& MSTATUS_VM ∧
      s.mstatus &&& mstatus_wmask = val &&& mstatus_wmask := by
  refine ⟨write_mstatus env val, rfl, ?_, ?_⟩
  · cases hvm : validate_vm (get_field val MSTATUS_VM)
    · simp only [write_mstatus, hvm, Bool.false_eq_true, if_false]
      rw [set_field_land_disj _ _ _ _ (by decide)]
      exact merge_land_disj _ _ _ _ (by decide)
    · simp only [write_mstatus, hvm, if_true]
      rw [set_field_land_disj _ _ _ _ (by decide)]
      exact merge_land_sub _ _ _ _ (by decide)
  · obtain ⟨mask2, hm, hs1, _⟩ := write_mstatus_mstatus env val
    rw [hm, set_field_land_disj _ _ _ _ (by decide)]
    exact merge_land_sub _ _ _ _ hs1

/-- C10: a write to `SSTATUS` changes only the SIE, SPIE, SPP, FS, XS and
PUM fields of `mstatus` and the recomputed SD summary bit; the
machine-level fields MIE, MPIE, MPP, MPRV, the MXR field and the
virtual-memory-scheme field are unchanged, although the re-dispatched
`MSTATUS` write mask includes them. -/
theorem sstatus_write_frame (env : CPUState) (val : Nat) :
    ∃ s, csr_write_helper env val CSR_SSTATUS = Res.ok () s ∧
      ((s.mstatus ^^^ env.mstatus) &&& (sstatus_mask ||| MSTATUS64_SD) =
        s.mstatus ^^^ env.mstatus) ∧
      s.mstatus &&& (MSTATUS_MIE ||| MSTATUS_MPIE ||| MSTATUS_MPP
          ||| MSTATUS_MPRV ||| MSTATUS_MXR ||| MSTATUS_VM) =
        env.mstatus &&& (MSTATUS_MIE ||| MSTATUS_MPIE ||| MSTATUS_MPP
          ||| MSTATUS_MPRV ||| MSTATUS_MXR ||| MSTATUS_VM) := by
  refine ⟨write_mstatus env
    (andNot env.mstatus sstatus_mask ||| (val &&& sstatus_mask)), rfl, ?_⟩
  obtain ⟨mask2, hm, _, hs2⟩ := write_mstatus_mstatus env
    (andNot env.mstatus sstatus_mask ||| (val &&& sstatus_mask))
  rw [hm]
  have d1 := merge_xor_submask env.mstatus val sstatus_mask
  have d2 := merge_xor_sub_xor env.mstatus
    (andNot env.mstatus sstatus_mask ||| (val &&& sstatus_mask)) mask2
  have d2s := xor_submask_mono _ _ sstatus_mask d2 d1
  have d3 := set_field_xor_submask
    (andNot env.mstatus mask2
      ||| ((andNot env.mstatus sstatus_mask ||| (val &&& sstatus_mask)) &&& mask2))
    MSTATUS64_SD
    (if ((andNot env.mstatus mask2
          ||| ((andNot env.mstatus sstatus_mask ||| (val &&& sstatus_mask)) &&& mask2))
          &&& MSTATUS_FS = MSTATUS_FS) ∨
        ((andNot env.mstatus mask2
          ||| ((andNot env.mstatus sstatus_mask ||| (val &&& sstatus_mask)) &&& mask2))
          &&& MSTATUS_XS = MSTATUS_XS)
     then 1 else 0)
  have d4 := xor_submask_trans _ _ env.mstatus MSTATUS64_SD sstatus_mask d3 d2s
  constructor
  · exact xor_submask_mono _ _ (sstatus_mask ||| MSTATUS64_SD) d4 (by decide)
  · exact land_frame_of_xor_submask _ _ _ _ d4 (by decide)

/-- C9: every CSR write operation, for every CSR number and value —
including the FFLAGS/FRM/FCSR paths that force the floating-point state
dirty and the SSTATUS path that re-dispatches through MSTATUS — preserves
the invariant that the `mstatus` summary dirty bit equals the disjunction
of the FS field being fully dirty and the XS field being fully dirty. -/
theorem csr_write_preserves_sd (env : CPUState) (val csrno : Nat)
    (h : sd_invariant env) :
    res_state_ok sd_invariant (csr_write_helper env val csrno) := by
  unfold csr_write_helper
  by_cases e1 : csrno = CSR_FFLAGS
  · rw [if_pos e1]
    exact sd_invariant_of_or_fs _ env.mstatus rfl
  rw [if_neg e1]
  by_cases e2 : csrno = CSR_FRM
  · rw [if_pos e2]
    exact sd_invariant_of_or_fs _ env.mstatus rfl
  rw [if_neg e2]
  by_cases e3 : csrno = CSR_FCSR
  · rw [if_pos e3]
    exact sd_invariant_of_or_fs _ env.mstatus rfl
  rw [if_neg e3]
  by_cases e4 : csrno = CSR_MSTATUS
  · rw [if_pos e4]
    exact sd_invariant_write_mstatus env val
  rw [if_neg e4]
  by_cases e5 : csrno = CSR_MIP
  · rw [if_pos e5]
    exact h
  rw [if_neg e5]
  by_cases e6 : csrno = CSR_MIE
  · rw [if_pos e6]
    exact h
  rw [if_neg e6]
  by_cases e7 : csrno = CSR_MIDELEG
  · rw [if_pos e7]
    exact h
  rw [if_neg e7]
  by_cases e8 : csrno = CSR_MEDELEG
  · rw [if_pos e8]
    exact h
  rw [if_neg e8]
  by_cases e9 : csrno = CSR_MUCOUNTEREN
  · rw [if_pos e9]
    exact h
  rw [if_neg e9]
  by_cases e10 : csrno = CSR_MSCOUNTEREN
  · rw [if_pos e10]
    exact h
  rw [if_neg e10]
  by_cases e11 : csrno = CSR_SSTATUS
  · rw [if_pos e11]
    exact sd_invariant_write_mstatus env _
  rw [if_neg e11]
  by_cases e12 : csrno = CSR_SIP
  · rw [if_pos e12]
    exact h
  rw [if_neg e12]
  by_cases e13 : csrno = CSR_SIE
  · rw [if_pos e13]
    exact h
  rw [if_neg e13]
  by_cases e14 : csrno = CSR_SPTBR
  · rw [if_pos e14]
    exact h
  rw [if_neg e14]
  by_cases e15 : csrno = CSR_SEPC
  · rw [if_pos e15]
    exact h
  rw [if_neg e15]
  by_cases e16 : csrno = CSR_STVEC
  · rw [if_pos e16]
    exact h
  rw [if_neg e16]
  by_cases e17 : csrno = CSR_SSCRATCH
  · rw [if_pos e17]
    exact h
  rw [if_neg e17]
  by_cases e18 : csrno = CSR_SCAUSE
  · rw [if_pos e18]
    exact h
  rw [if_neg e18]
  by_cases e19 : csrno = CSR_SBADADDR
  · rw [if_pos e19]
    exact h
  rw [if_neg e19]
  by_cases e20 : csrno = CSR_MEPC
  · rw [if_pos e20]
    exact h
  rw [if_neg e20]
  by_cases e21 : csrno = CSR_MTVEC
  · rw [if_pos e21]
    exact h
  rw [if_neg e21]
  by_cases e22 : csrno = CSR_MSCRATCH
  · rw [if_pos e22]
    exact h
  rw [if_neg e22]
  by_cases e23 : csrno = CSR_MCAUSE
  · rw [if_pos e23]
    exact h
  rw [if_neg e23]
  by_cases e24 : csrno = CSR_MBADADDR
  · rw [if_pos e24]
    exact h
  rw [if_neg e24]
  by_cases e25 : csrno = CSR_MISA
  · rw [if_pos e25]
    exact h
  rw [if_neg e25]
  by_cases e26 : csrno = CSR_TSELECT
  · rw [if_pos e26]
    exact h
  rw [if_neg e26]
  by_cases e27 : csrno = CSR_TDATA1
  · rw [if_pos e27]
    trivial
  rw [if_neg e27]
  by_cases e28 : csrno = CSR_TDATA2
  · rw [if_pos e28]
    trivial
  rw [if_neg e28]
  by_cases e29 : csrno = CSR_DCSR
  · rw [if_pos e29]
    trivial
  rw [if_neg e29]
  by_cases e30 : csrno = CSR_MCYCLE
  · rw [if_pos e30]
    exact h
  rw [if_neg e30]
  by_cases e31 : csrno = CSR_MCYCLEH
  · rw [if_pos e31]
    exact h
  rw [if_neg e31]
  by_cases e32 : csrno = CSR_MINSTRET
  · rw [if_pos e32]
    exact h
  rw [if_neg e32]
  by_cases e33 : csrno = CSR_MINSTRETH
  · rw [if_pos e33]
    exact h
  rw [if_neg e33]
  exact h

/-- C9 witness: from the all-zero state (whose summary bit invariant
holds), a write to `SEPC` preserves the invariant. -/
theorem csr_write_preserves_sd_witness :
    sd_invariant env0 ∧
    res_state_ok sd_invariant (csr_write_helper env0 5 CSR_SEPC) :=
  ⟨by decide, csr_write_preserves_sd env0 5 CSR_SEPC (by decide)⟩

/-- C2: a User-mode read of `CSR_CYCLE` with the corresponding
`mucounteren` bit clear raises illegal-instruction (first conjunct, as the
claim states); but with the bit set it returns the raw lifetime instruction
count, not the value a Machine-mode read of `CSR_MCYCLE` returns at the
same instant: with raw count 5, cycle snapshot 0 and offset 1, the User
read yields 5 while the Machine `MCYCLE` read yields 6 (the source marks
this path `TODO fix TIME, INSTRET, CYCLE in user mode`). -/
theorem user_cycle_read_divergence :
    csr_read_helper env0 CSR_CYCLE =
      Res.trap RISCV_EXCP_ILLEGAL_INST 0
        { env0 with exception_index := RISCV_EXCP_ILLEGAL_INST } ∧
    csr_read_helper envCyc CSR_CYCLE = Res.ok 5 envCyc ∧
    csr_read_helper { envCyc with priv := PRV_M } CSR_MCYCLE =
      Res.ok 6 { envCyc with priv := PRV_M } ∧
    (5 : Nat) ≠ 6 := by
  refine ⟨by decide, by decide, by decide, by decide⟩

/-- C8 counterexample: with raw lifetime count 0, snapshot 0 and offset 5
the cycle counter reads 5; writing 3 to its low half (`CSR_MCYCLE`) makes
the very next read return 3 < 5, so `current(counter)` is not
non-decreasing across writes. -/
theorem counter_write_decrease_cex :
    get_mcycles_current { env0 with mcycle_snapshot_offset := 5 } = 5 ∧
    csr_write_helper { env0 with mcycle_snapshot_offset := 5 } 3 CSR_MCYCLE =
      Res.ok () { env0 with mcycle_snapshot_offset := 3 } ∧
    get_mcycles_current { env0 with mcycle_snapshot_offset := 3 } = 3 ∧
    (3 : Nat) < 5 := by
  refine ⟨by decide, by decide, by decide, by decide⟩

/-- C8 amended: `current(counter) = raw − snapshot + offset` in 64-bit
arithmetic; a write to the low (resp. high) half of `MCYCLE`/`MINSTRET`
replaces that half of the current value with the written word — so a write
may decrease the counter — and between writes, for a non-decreasing raw
lifetime count (without 64-bit wrap-around), reads of the counter are
non-decreasing. -/
theorem counter_write_characterization (env : CPUState) (val r1 r2 : Nat)
    (hval : val < 4294967296)
    (hb1 : env.mcycle_snapshot < 18446744073709551616)
    (hb2 : env.minstret_snapshot < 18446744073709551616)
    (hs1 : env.mcycle_snapshot ≤ r1)
    (hs2 : env.minstret_snapshot ≤ r1)
    (h12 : r1 ≤ r2)
    (hn1 : env.mcycle_snapshot_offset + (r2 - env.mcycle_snapshot) <
      18446744073709551616)
    (hn2 : env.minstret_snapshot_offset + (r2 - env.minstret_snapshot) <
      18446744073709551616) :
    (∃ s, csr_write_helper env val CSR_MCYCLE = Res.ok () s ∧
      get_mcycles_current s =
        (get_mcycles_current env &&& 0xFFFFFFFF00000000) ||| val) ∧
    (∃ s, csr_write_helper env val CSR_MCYCLEH = Res.ok () s ∧
      get_mcycles_current s =
        (get_mcycles_current env &&& 0x00000000FFFFFFFF) ||| (val <<< 32)) ∧
    (∃ s, csr_write_helper env val CSR_MINSTRET = Res.ok () s ∧
      get_minstret_current s =
        (get_minstret_current env &&& 0xFFFFFFFF00000000) ||| val) ∧
    (∃ s, csr_write_helper env val CSR_MINSTRETH = Res.ok () s ∧
      get_minstret_current s =
        (get_minstret_current env &&& 0x00000000FFFFFFFF) ||| (val <<< 32)) ∧
    get_mcycles_current { env with instructions_count_total_value := r1 } ≤
      get_mcycles_current { env with instructions_count_total_value := r2 } ∧
    get_minstret_current { env with instructions_count_total_value := r1 } ≤
      get_minstret_current { env with instructions_count_total_value := r2 } := by
  have hM : (18446744073709551616 : Nat) = 2 ^ 64 := by norm_num
  have hv64 : val < 18446744073709551616 := by omega
  have hsh : val <<< 32 < 18446744073709551616 := by
    rw [Nat.shiftLeft_eq]
    have : (2 : Nat) ^ 32 = 4294967296 := by norm_num
    rw [this]
    omega
  refine ⟨⟨_, rfl, ?_⟩, ⟨_, rfl, ?_⟩, ⟨_, rfl, ?_⟩, ⟨_, rfl, ?_⟩, ?_, ?_⟩
  · show add64 (sub64 env.instructions_count_total_value
      env.instructions_count_total_value) _ = _
    rw [sub64_self, add64_zero]
    rw [hM]
    refine Nat.or_lt_two_pow ?_ ?_
    · rw [← hM]
      exact lt_of_le_of_lt (Nat.and_le_left) (get_mcycles_lt env)
    · rw [← hM]
      exact hv64
  · show add64 (sub64 env.instructions_count_total_value
      env.instructions_count_total_value) _ = _
    rw [sub64_self, add64_zero]
    rw [hM]
    refine Nat.or_lt_two_pow ?_ ?_
    · rw [← hM]
      exact lt_of_le_of_lt (Nat.and_le_left) (get_mcycles_lt env)
    · rw [← hM]
      exact hsh
  · show add64 (sub64 env.instructions_count_total_value
      env.instructions_count_total_value) _ = _
    rw [sub64_self, add64_zero]
    rw [hM]
    refine Nat.or_lt_two_pow ?_ ?_
    · rw [← hM]
      exact lt_of_le_of_lt (Nat.and_le_left) (get_minstret_lt env)
    · rw [← hM]
      exact hv64
  · show add64 (sub64 env.instructions_count_total_value
      env.instructions_count_total_value) _ = _
    rw [sub64_self, add64_zero]
    rw [hM]
    refine Nat.or_lt_two_pow ?_ ?_
    · rw [← hM]
      exact lt_of_le_of_lt (Nat.and_le_left) (get_minstret_lt env)
    · rw [← hM]
      exact hsh
  · unfold get_mcycles_current add64 sub64 cpu_riscv_read_instret
    dsimp only
    omega
  · unfold get_minstret_current add64 sub64 cpu_riscv_read_instret
    dsimp only
    omega

/-- C8 witness: the amended characterization at a concrete state with raw
count 9, cycle snapshot 4, offset 6 and written word 3. -/
theorem counter_write_characterization_witness :
    (3 : Nat) < 4294967296 ∧
    (∃ s, csr_write_helper
        { env0 with instructions_count_total_value := 9, mcycle_snapshot := 4,
                    mcycle_snapshot_offset := 6 } 3 CSR_MCYCLE = Res.ok () s ∧
      get_mcycles_current s =
        (get_mcycles_current
          { env0 with instructions_count_total_value := 9, mcycle_snapshot := 4,
                      mcycle_snapshot_offset := 6 } &&& 0xFFFFFFFF00000000) ||| 3) ∧
    get_mcycles_current
        { env0 with instructions_count_total_value := 9, mcycle_snapshot := 4,
                    mcycle_snapshot_offset := 6 } ≤
      get_mcycles_current
        { env0 with instructions_count_total_value := 12, mcycle_snapshot := 4,
                    mcycle_snapshot_offset := 6 } := by
  have h := counter_write_characterization
    { env0 with instructions_count_total_value := 9, mcycle_snapshot := 4,
                mcycle_snapshot_offset := 6 } 3 9 12
    (by decide) (by decide) (by decide) (by decide) (by decide) (by decide)
    (by decide) (by decide)
  exact ⟨by decide, h.1, h.2.2.2.2.1⟩

/-- C4 counterexample: a read of `CSR_HPMCOUNTER3` at User privilege with
the corresponding `mucounteren` bit clear raises an illegal-instruction
trap instead of returning the constant zero the claim promises for every
privilege level and enable state. -/
theorem hpm_counter_read_trap_cex :
    csr_read_helper env0 CSR_HPMCOUNTER3 =
      Res.trap RISCV_EXCP_ILLEGAL_INST 0
        { env0 with exception_index := RISCV_EXCP_ILLEGAL_INST } ∧
    env0.priv = PRV_U ∧ env0.mucounteren = 0 ∧
    csr_read_helper env0 CSR_HPMCOUNTER3 ≠ Res.ok 0 env0 := by
  refine ⟨by decide, by decide, by decide, by decide⟩

/-- C4 amended: reads in the machine-level HPM ranges
(`MHPMCOUNTER3`-`MHPMCOUNTER31`, `MHPMEVENT3`-`MHPMEVENT31`) return
constant zero without trapping at any privilege; reads in the user-level
HPM ranges (`HPMCOUNTER3`-`HPMCOUNTER31` and their high halves) return
zero exactly when the per-privilege counter-enable bit at position
`csrno & 31` is set — which is always the case at Machine privilege — and
raise illegal-instruction when it is clear. -/
theorem hpm_counter_read (env : CPUState) (csrno : Nat) :
    (CSR_MHPMCOUNTER3 ≤ csrno ∧ csrno ≤ CSR_MHPMCOUNTER31 →
      csr_read_helper env csrno = Res.ok 0 env) ∧
    (CSR_MHPMEVENT3 ≤ csrno ∧ csrno ≤ CSR_MHPMEVENT31 →
      csr_read_helper env csrno = Res.ok 0 env) ∧
    ((CSR_HPMCOUNTER3 ≤ csrno ∧ csrno ≤ CSR_HPMCOUNTER31) ∨
     (CSR_HPMCOUNTER3H ≤ csrno ∧ csrno ≤ CSR_HPMCOUNTER31H) →
      (ctr_ok env csrno ≠ 0 → csr_read_helper env csrno = Res.ok 0 env) ∧
      (ctr_ok env csrno = 0 →
        csr_read_helper env csrno =
          Res.trap RISCV_EXCP_ILLEGAL_INST 0
            { env with exception_index := RISCV_EXCP_ILLEGAL_INST })) ∧
    (env.priv = PRV_M → ctr_ok env csrno ≠ 0) := by
  refine ⟨?_, ?_, ?_, ?_⟩
  · intro hr
    have ha : 0xB03 ≤ csrno := hr.1
    have hb : csrno ≤ 0xB1F := hr.2
    unfold csr_read_helper
    rw [if_neg (fun hc => by
          have h1 : 0xC03 ≤ csrno := hc.2.1
          omega),
      if_neg (fun hc => by
          have h1 : 0xC83 ≤ csrno := hc.2.1
          omega),
      if_pos hr]
  · intro hr
    have ha : 0x323 ≤ csrno := hr.1
    have hb : csrno ≤ 0x33F := hr.2
    unfold csr_read_helper
    rw [if_neg (fun hc => by
          have h1 : 0xC03 ≤ csrno := hc.2.1
          omega),
      if_neg (fun hc => by
          have h1 : 0xC83 ≤ csrno := hc.2.1
          omega),
      if_neg (fun hc => by
          have h1 : 0xB03 ≤ csrno := hc.1
          omega),
      if_neg (fun hc => by
          have h1 : 0xB03 ≤ csrno := hc.1
          omega),
      if_pos hr]
  · intro hr
    constructor
    · intro hok
      rcases hr with ⟨ha, hb⟩ | ⟨ha, hb⟩
      · unfold csr_read_helper
        rw [if_pos ⟨hok, ha, hb⟩]
      · have ha2 : 0xC83 ≤ csrno := ha
        unfold csr_read_helper
        rw [if_neg (fun hc => by
              have h1 : csrno ≤ 0xC1F := hc.2.2
              omega),
          if_pos ⟨hok, ha, hb⟩]
    · intro h0
      have hn : (0xC03 ≤ csrno ∧ csrno ≤ 0xC1F) ∨
          (0xC83 ≤ csrno ∧ csrno ≤ 0xC9F) := hr
      unfold csr_read_helper
      rw [if_neg (fun hc => hc.1 h0), if_neg (fun hc => hc.1 h0),
        if_neg (fun hc => by
          have h1 : 0xB03 ≤ csrno := hc.1
          have h2 : csrno ≤ 0xB1F := hc.2
          omega),
        if_neg (fun hc => by
          have h1 : 0xB03 ≤ csrno := hc.1
          have h2 : csrno ≤ 0xB1F := hc.2
          omega),
        if_neg (fun hc => by
          have h1 : 0x323 ≤ csrno := hc.1
          have h2 : csrno ≤ 0x33F := hc.2
          omega)]
      exact csr_read_switch_unknown env _ csrno hr
  · intro hM
    unfold ctr_ok ctr_en
    rw [hM]
    rw [if_neg (show ¬ (PRV_M = PRV_U) from by decide),
      if_neg (show ¬ (PRV_M = PRV_S) from by decide)]
    have hj : csrno &&& 31 < 32 :=
      lt_of_le_of_lt Nat.and_le_right (by norm_num)
    have hall : ∀ j, j < 32 → (4294967295 >>> j) &&& 1 = 1 := by decide
    rw [hall _ hj]
    omega

/-- C4 witness: at Machine privilege both `CSR_MHPMCOUNTER3` and
`CSR_HPMCOUNTER3` read as constant zero. -/
theorem hpm_counter_read_witness :
    csr_read_helper envM CSR_MHPMCOUNTER3 = Res.ok 0 envM ∧
    csr_read_helper envM CSR_HPMCOUNTER3 = Res.ok 0 envM := by
  have h1 := hpm_counter_read envM CSR_MHPMCOUNTER3
  have h2 := hpm_counter_read envM CSR_HPMCOUNTER3
  refine ⟨h1.1 ⟨by decide, by decide⟩, ?_⟩
  exact (h2.2.2.1 (Or.inl ⟨by decide, by decide⟩)).1 (h2.2.2.2 (by decide))

/-- C1 counterexample: `sret` at Supervisor privilege with aligned
`sepc = 0x1000`, `SPP = User` and `SPIE = 1` (`mstatus = 0x20`) returns to
User but leaves the User interrupt-enable bit of `mstatus` at 0 instead of
restoring it from SPIE: the `MSTATUS` writable mask does not include the
UIE bit, so the claim that the new privilege level's interrupt-enable bit
is set from SPIE fails when that level is User. -/
theorem sret_uie_not_restored_cex :
    helper_sret { env0 with priv := 1, sepc := 0x1000, mstatus := 0x20 } 0 =
      Res.ok 0x1000 { env0 with sepc := 0x1000 } ∧
    get_field (0x20 : Nat) MSTATUS_SPP = PRV_U ∧
    (0x20 : Nat).testBit 5 = true ∧
    ({ env0 with sepc := 0x1000 } : CPUState).mstatus.testBit 0 = false := by
  refine ⟨by decide, by decide, by decide, by decide⟩

/-- C1 amended: `sret` below Supervisor privilege raises
illegal-instruction; at or above it, a misaligned `sepc` (low two bits set)
raises instruction-address-misaligned before any state mutation; otherwise
it returns `sepc` as the target PC, sets the current privilege to the
`SPP` field of `mstatus`, clears `SPIE`, forces `SPP` to User, and — when
the restored privilege is Supervisor — sets `SIE` from `SPIE`; when the
restored privilege is User, the User interrupt-enable bit of `mstatus` is
left unchanged, because the `MSTATUS` writable mask omits `UIE`. -/
theorem helper_sret_spec (env : CPUState) (pc_deb : Nat) :
    (env.priv < PRV_S →
      helper_sret env pc_deb =
        Res.trap RISCV_EXCP_ILLEGAL_INST 0
          { env with exception_index := RISCV_EXCP_ILLEGAL_INST }) ∧
    (PRV_S ≤ env.priv → env.sepc &&& 3 ≠ 0 →
      helper_sret env pc_deb =
        Res.trap RISCV_EXCP_INST_ADDR_MIS 0
          { env with exception_index := RISCV_EXCP_INST_ADDR_MIS }) ∧
    (PRV_S ≤ env.priv → env.sepc &&& 3 = 0 →
      ∃ s, helper_sret env pc_deb = Res.ok env.sepc s ∧
        s.priv = get_field env.mstatus MSTATUS_SPP ∧
        s.sepc = env.sepc ∧
        s.mstatus &&& MSTATUS_SPIE = 0 ∧
        s.mstatus &&& MSTATUS_SPP = 0 ∧
        (get_field env.mstatus MSTATUS_SPP = PRV_S →
          s.mstatus.testBit 1 = env.mstatus.testBit 5) ∧
        (get_field env.mstatus MSTATUS_SPP = PRV_U →
          s.mstatus.testBit 0 = env.mstatus.testBit 0)) := by
  have hgf : get_field env.mstatus MSTATUS_SPP =
      if env.mstatus.testBit 8 then 1 else 0 := by
    rw [show MSTATUS_SPP = 2 ^ 8 from by decide]
    exact get_field_two_pow _ 8
  have hsple : get_field env.mstatus (2 ^ 5) ≤ 1 := by
    rw [get_field_two_pow]
    split <;> omega
  refine ⟨?_, ?_, ?_⟩
  · intro hlt
    simp only [helper_sret]
    rw [if_pos (Nat.not_le.mpr hlt)]
  · intro hge hmis
    simp only [helper_sret]
    rw [if_neg (not_not_intro hge), if_pos hmis]
  · intro hge halign
    cases hspp : env.mstatus.testBit 8
    · have hprev : get_field env.mstatus MSTATUS_SPP = 0 := by
        rw [hgf, hspp]
        simp
      refine ⟨write_mstatus { env with priv := 0 }
        (set_field (set_field (set_field env.mstatus (MSTATUS_UIE <<< 0)
          (get_field env.mstatus MSTATUS_SPIE)) MSTATUS_SPIE 0)
            MSTATUS_SPP PRV_U), ?_, ?_, rfl, ?_, ?_, ?_, ?_⟩
      · simp only [helper_sret]
        rw [if_neg (not_not_intro hge), if_neg (fun hc => hc halign), hprev]
        rfl
      · rw [hprev]
        rfl
      · rw [show MSTATUS_SPIE = 2 ^ 5 from by decide,
          show MSTATUS_SPP = 2 ^ 8 from by decide, land_two_pow]
        rw [write_mstatus_testBit_in _ _ 5 (by omega) (by decide)]
        rw [testBit_set_field_single _ 8 _ 5 (by decide),
          if_neg (show ¬ (5 = 8) from by omega)]
        rw [testBit_set_field_single _ 5 _ 5 (by decide),
          if_pos (show (5 : Nat) = 5 from rfl)]
        simp
      · rw [show MSTATUS_SPP = 2 ^ 8 from by decide, land_two_pow]
        rw [write_mstatus_testBit_in _ _ 8 (by omega) (by decide)]
        rw [testBit_set_field_single _ 8 _ 8 (by decide),
          if_pos (show (8 : Nat) = 8 from rfl)]
        simp [PRV_U]
      · intro hcon
        rw [hprev] at hcon
        exact absurd hcon (by decide)
      · intro _
        rw [write_mstatus_testBit_out _ _ 0 (by omega) (by decide) (by decide)]
    · have hprev : get_field env.mstatus MSTATUS_SPP = 1 := by
        rw [hgf, hspp]
        simp
      refine ⟨write_mstatus { env with priv := 1 }
        (set_field (set_field (set_field env.mstatus (MSTATUS_UIE <<< 1)
          (get_field env.mstatus MSTATUS_SPIE)) MSTATUS_SPIE 0)
            MSTATUS_SPP PRV_U), ?_, ?_, rfl, ?_, ?_, ?_, ?_⟩
      · simp only [helper_sret]
        rw [if_neg (not_not_intro hge), if_neg (fun hc => hc halign), hprev]
        rfl
      · rw [hprev]
        rfl
      · rw [show MSTATUS_SPIE = 2 ^ 5 from by decide,
          show MSTATUS_SPP = 2 ^ 8 from by decide, land_two_pow]
        rw [write_mstatus_testBit_in _ _ 5 (by omega) (by decide)]
        rw [testBit_set_field_single _ 8 _ 5 (by decide),
          if_neg (show ¬ (5 = 8) from by omega)]
        rw [testBit_set_field_single _ 5 _ 5 (by decide),
          if_pos (show (5 : Nat) = 5 from rfl)]
        simp
      · rw [show MSTATUS_SPP = 2 ^ 8 from by decide, land_two_pow]
        rw [write_mstatus_testBit_in _ _ 8 (by omega) (by decide)]
        rw [testBit_set_field_single _ 8 _ 8 (by decide),
          if_pos (show (8 : Nat) = 8 from rfl)]
        simp [PRV_U]
      · intro _
        rw [write_mstatus_testBit_in _ _ 1 (by omega) (by decide)]
        rw [show MSTATUS_SPP = 2 ^ 8 from by decide,
          show MSTATUS_SPIE = 2 ^ 5 from by decide,
          show (MSTATUS_UIE <<< 1 : Nat) = 2 ^ 1 from by decide]
        rw [testBit_set_field_single _ 8 _ 1 (by decide),
          if_neg (show ¬ (1 = 8) from by omega)]
        rw [testBit_set_field_single _ 5 _ 1 (by decide),
          if_neg (show ¬ (1 = 5) from by omega)]
        rw [testBit_set_field_single _ 1 _ 1 hsple,
          if_pos (show (1 : Nat) = 1 from rfl)]
        rw [get_field_two_pow]
        cases h5 : env.mstatus.testBit 5
        · simp
        · simp
      · intro hcon
        rw [hprev] at hcon
        exact absurd hcon (by decide)

/-- C1 witness: `sret` at Supervisor privilege with `SPP = Supervisor`
(`mstatus = 0x122`: SPP set, SPIE set, SIE clear) returns to Supervisor
with `SIE` restored from `SPIE`, `SPIE` cleared and `SPP` forced to User;
and at User privilege it raises illegal-instruction. -/
theorem helper_sret_spec_witness :
    (env0.priv < PRV_S ∧
      helper_sret env0 0 =
        Res.trap RISCV_EXCP_ILLEGAL_INST 0
          { env0 with exception_index := RISCV_EXCP_ILLEGAL_INST }) ∧
    (PRV_S ≤ envSret.priv ∧ envSret.sepc &&& 3 = 0 ∧
      ∃ s, helper_sret envSret 0 = Res.ok 0x1000 s ∧
        s.priv = get_field envSret.mstatus MSTATUS_SPP ∧
        s.sepc = 0x1000 ∧
        s.mstatus &&& MSTATUS_SPIE = 0 ∧
        s.mstatus &&& MSTATUS_SPP = 0 ∧
        s.mstatus.testBit 1 = envSret.mstatus.testBit 5) := by
  constructor
  · exact ⟨by decide, (helper_sret_spec env0 0).1 (by decide)⟩
  · refine ⟨by decide, by decide, ?_⟩
    obtain ⟨s, h1, h2, h3, h4, h5, h6, _⟩ :=
      (helper_sret_spec envSret 0).2.2 (by decide) (by decide)
    exact ⟨s, h1, h2, h3, h4, h5, h6 (by decide)⟩

end Tlib
